import Mathlib

/-!
Shallow embedding of src/detector_zero.py (Vigorous Power Detector).

The program keeps, per relay channel, a module-global last-state variable
(R1_LAST_STATE, initialized to 2) holding the raw pin level of the last
accepted observation: 0 means the relay is open (power on), 1 means the
relay is closed (power off), and 2 is the startup sentinel (the
"Initializing" state of the spec).  The three handlers
r1_gpio_event_detected / r2_gpio_event_detected / r3_gpio_event_detected
are verbatim copies of each other over their own channel globals, so one
parameterized function embeds all of them.  Each handler reads the pin
level, writes the red/green LEDs for that level, and classifies the
observation against the last-state variable; genuine transitions call
publish_sns_alert before assigning the new level to the last-state
variable.  publish_sns_alert performs a single publish attempt on the
transport when the global SNS_ENABLE flag is set, and does nothing
otherwise; an error raised by the transport call propagates out of the
handler, skipping the statements that follow the call site.
-/

namespace DetectorZero

/-- Classification outcomes, as assigned to the local `status` variable in
the handlers: the strings Failure, Success, Ghost Trigger and
Script Initializing of detector_zero.py. -/
inductive Status where
  | failure
  | success
  | ghostTrigger
  | scriptInitializing
  deriving DecidableEq, Repr

/-- The two module-global configuration flags the handlers read:
LOG_GHOSTS (line 76) and SNS_ENABLE (line 80). -/
structure Config where
  logGhosts : Bool
  snsEnable : Bool
  deriving DecidableEq, Repr

/-- The channel's two indicator LEDs; `true` means the LED is on. -/
structure LedState where
  red : Bool
  green : Bool
  deriving DecidableEq, Repr

/-- Mutable per-channel state: the last-state global (0, 1, or the startup
sentinel 2) together with the channel's LEDs. -/
structure ChannelState where
  lastState : Nat
  leds : LedState
  deriving DecidableEq, Repr

/-- Channel state at module load: R1_LAST_STATE = 2 (line 93) and both LEDs
switched off (lines 89 and 91). -/
def initialChannel : ChannelState := ⟨2, ⟨false, false⟩⟩

/-- Outcome of one publish_sns_alert call: whether the transport publish
was invoked, and whether that call raised an error. -/
structure DispatchResult where
  published : Bool
  raised : Bool
  deriving DecidableEq, Repr

/-- publish_sns_alert (lines 331 to 374): when SNS_ENABLE is true it makes a
single publish call on the transport, which either returns normally or
raises; when SNS_ENABLE is false the body after the payload construction is
skipped and the function returns without touching the transport.
`transportOk` stands for the environment: whether the transport call, if
made, returns normally. -/
def publish_sns_alert (snsEnable transportOk : Bool) : DispatchResult :=
  if snsEnable then ⟨true, !transportOk⟩ else ⟨false, false⟩

/-- Everything observable about one handler invocation: the last-state
variable and LEDs after the call, the `status` value the handler assigned
(none when no branch assigned one, i.e. a suppressed ghost or an invalid
level), the status passed to publish_sns_alert when that call was made,
whether a transport publish happened, and whether an error escaped the
handler. -/
structure ObsResult where
  lastState : Nat
  leds : LedState
  status : Option Status
  alert : Option Status
  snsPublished : Bool
  raised : Bool
  deriving DecidableEq, Repr

/-- r1_gpio_event_detected (lines 199 to 240), parameterized over the
channel state instead of the R1 globals.  The Python body is two
consecutive `if` statements on the pin value (mutually exclusive, embedded
as if-then-else-if); inside each, the LEDs are written first and then the
elif chain on the last-state variable runs.  In the Failure and Success
branches publish_sns_alert is called before the assignment to the
last-state variable, so when the publish raises, the assignment does not
execute and the error escapes. -/
def r1_gpio_event_detected (cfg : Config) (transportOk : Bool)
    (st : ChannelState) (r1_state : Nat) : ObsResult :=
  if r1_state = 1 then
    -- R1_GREEN_LED.off(); R1_RED_LED.on()
    let leds : LedState := ⟨true, false⟩
    if st.lastState = 0 then
      let d := publish_sns_alert cfg.snsEnable transportOk
      if d.raised then
        ⟨st.lastState, leds, some .failure, some .failure, d.published, true⟩
      else
        ⟨r1_state, leds, some .failure, some .failure, d.published, false⟩
    else if st.lastState = 1 ∧ cfg.logGhosts = true then
      ⟨st.lastState, leds, some .ghostTrigger, none, false, false⟩
    else if st.lastState = 2 then
      ⟨r1_state, leds, some .scriptInitializing, none, false, false⟩
    else
      ⟨st.lastState, leds, none, none, false, false⟩
  else if r1_state = 0 then
    -- R1_RED_LED.off(); R1_GREEN_LED.on()
    let leds : LedState := ⟨false, true⟩
    if st.lastState = 1 then
      let d := publish_sns_alert cfg.snsEnable transportOk
      if d.raised then
        ⟨st.lastState, leds, some .success, some .success, d.published, true⟩
      else
        ⟨r1_state, leds, some .success, some .success, d.published, false⟩
    else if st.lastState = 0 ∧ cfg.logGhosts = true then
      ⟨st.lastState, leds, some .ghostTrigger, none, false, false⟩
    else if st.lastState = 2 then
      ⟨r1_state, leds, some .scriptInitializing, none, false, false⟩
    else
      ⟨st.lastState, leds, none, none, false, false⟩
  else
    ⟨st.lastState, st.leds, none, none, false, false⟩

/-- Serial delivery of a list of pin levels to one channel's handler, each
invocation starting from the state the previous one left behind; returns
the per-invocation results in order.  Used for configurations in which no
invocation raises, matching the serial callback delivery of the source. -/
def runObserve (cfg : Config) (transportOk : Bool) :
    ChannelState → List Nat → List ObsResult
  | _, [] => []
  | st, l :: ls =>
      let r := r1_gpio_event_detected cfg transportOk st l
      r :: runObserve cfg transportOk ⟨r.lastState, r.leds⟩ ls

/-- The GPIO handles held by the program: per channel, the relay button and
the two indicator LEDs (lines 86 to 113). -/
inductive Handle where
  | r1Relay | r2Relay | r3Relay
  | r1RedLed | r2RedLed | r3RedLed
  | r1GreenLed | r2GreenLed | r3GreenLed
  deriving DecidableEq, Repr

/-- The close() calls in the `finally` block of main (lines 183 to 189), in
source order.  The block runs unconditionally, whether the monitoring wait
ended by KeyboardInterrupt or by a trapped exception. -/
def teardownCloses : List Handle :=
  [.r1Relay, .r2Relay, .r3Relay, .r1RedLed, .r2RedLed, .r1GreenLed, .r2GreenLed]

/-- A pin value other than 0 or 1 matches neither `if` in the handler body,
so the invocation changes nothing and raises nothing. -/
lemma observe_invalid (cfg : Config) (tOk : Bool) (st : ChannelState)
    (level : Nat) (h0 : level ≠ 0) (h1 : level ≠ 1) :
    r1_gpio_event_detected cfg tOk st level =
      ⟨st.lastState, st.leds, none, none, false, false⟩ := by
  simp [r1_gpio_event_detected, h0, h1]

/-- With SNS_ENABLE false, publish_sns_alert never reaches the transport,
so no invocation publishes or raises. -/
lemma observe_snsDisabled (lg tOk : Bool) (st : ChannelState) (level : Nat) :
    (r1_gpio_event_detected ⟨lg, false⟩ tOk st level).snsPublished = false ∧
    (r1_gpio_event_detected ⟨lg, false⟩ tOk st level).raised = false := by
  simp only [r1_gpio_event_detected, publish_sns_alert]
  (repeat' split) <;> first | exact ⟨rfl, rfl⟩ | simp_all

/-- An error escapes the handler exactly when SNS_ENABLE is set, the
transport call fails, and the observation is a genuine transition (the only
branches that call publish_sns_alert). -/
lemma raised_iff (cfg : Config) (tOk : Bool) (st : ChannelState) (level : Nat) :
    (r1_gpio_event_detected cfg tOk st level).raised = true ↔
      cfg.snsEnable = true ∧ tOk = false ∧
        ((st.lastState = 0 ∧ level = 1) ∨ (st.lastState = 1 ∧ level = 0)) := by
  simp only [r1_gpio_event_detected, publish_sns_alert]
  (repeat' split) <;> simp_all

/-- C2 counterexample: the claim says a raw level other than 0 or 1 makes
observe fail with an InvalidSignalLevel error.  At the concrete level 2
(with last state 1) the handler instead returns normally, assigns no
status, raises no error, and changes nothing: the call is silently
ignored, not rejected. -/
theorem C2_counterexample :
    r1_gpio_event_detected ⟨false, true⟩ true ⟨1, ⟨true, false⟩⟩ 2 =
      ⟨1, ⟨true, false⟩, none, none, false, false⟩ := by decide

/-- C2 amended: for every channel, calling observe with any raw level other
than 0 or 1 is silently ignored: no state change, no classification, no
LED write, no dispatch, and no error raised. -/
theorem C2_invalid_level_silently_ignored (cfg : Config) (tOk : Bool)
    (st : ChannelState) (level : Nat) (h0 : level ≠ 0) (h1 : level ≠ 1) :
    r1_gpio_event_detected cfg tOk st level =
      ⟨st.lastState, st.leds, none, none, false, false⟩ :=
  observe_invalid cfg tOk st level h0 h1

/-- C2 witness: the amended theorem evaluated at level 3. -/
theorem C2_invalid_level_silently_ignored_witness :
    (3 : Nat) ≠ 0 ∧ (3 : Nat) ≠ 1 ∧
    r1_gpio_event_detected ⟨false, true⟩ true ⟨0, ⟨false, true⟩⟩ 3 =
      ⟨0, ⟨false, true⟩, none, none, false, false⟩ :=
  ⟨by decide, by decide,
    C2_invalid_level_silently_ignored ⟨false, true⟩ true ⟨0, ⟨false, true⟩⟩ 3
      (by decide) (by decide)⟩

/-- C4: the first observe call after construction (last state 2, the
Initializing sentinel) classifies as Script Initializing, makes no call to
publish_sns_alert, and sets the stored state to the observed level: 1
(power off) when the level is 1, 0 (power on) when the level is 0. -/
theorem C4_first_observe (cfg : Config) (tOk : Bool) (leds : LedState)
    (level : Nat) (h : level = 0 ∨ level = 1) :
    r1_gpio_event_detected cfg tOk ⟨2, leds⟩ level =
      ⟨level, ⟨level == 1, level == 0⟩, some .scriptInitializing,
        none, false, false⟩ := by
  rcases h with h | h <;> subst h <;> simp [r1_gpio_event_detected]

/-- C4 witness: the theorem evaluated at level 0 from a fresh channel. -/
theorem C4_first_observe_witness :
    r1_gpio_event_detected ⟨true, true⟩ true ⟨2, ⟨false, false⟩⟩ 0 =
      ⟨0, ⟨false, true⟩, some .scriptInitializing, none, false, false⟩ :=
  C4_first_observe ⟨true, true⟩ true ⟨false, false⟩ 0 (Or.inl rfl)

/-- C6: from a fresh channel with LOG_GHOSTS false, the level sequence
1, 1, 0, 0, 1 yields the status sequence Script Initializing, nothing
(suppressed ghost), Success, nothing (suppressed ghost), Failure, and
exactly two dispatched alerts, Success then Failure, in that order. -/
theorem C6_round_trip :
    (runObserve ⟨false, true⟩ true initialChannel [1, 1, 0, 0, 1]).map
        (fun r => r.status) =
      [some .scriptInitializing, none, some .success, none, some .failure] ∧
    (runObserve ⟨false, true⟩ true initialChannel [1, 1, 0, 0, 1]).filterMap
        (fun r => r.alert) =
      [.success, .failure] := by decide

/-- C8: the `finally` block of main closes all three relay handles and the
red and green LED handles of channels 1 and 2, but never closes channel
3's red or green LED handle, so the claim that every channel's indicator
handles are released does not hold for channel 3. -/
theorem C8_teardown_misses_r3_leds :
    Handle.r3Relay ∈ teardownCloses ∧
    Handle.r3RedLed ∉ teardownCloses ∧
    Handle.r3GreenLed ∉ teardownCloses := by decide

/-- C9: on every observe call with a valid level the LEDs are written
regardless of the classification branch taken and of any dispatch error:
red on and green off when the level is 1, green on and red off when the
level is 0. -/
theorem C9_led_writes (cfg : Config) (tOk : Bool) (st : ChannelState)
    (level : Nat) (h : level = 0 ∨ level = 1) :
    (r1_gpio_event_detected cfg tOk st level).leds =
      ⟨level == 1, level == 0⟩ := by
  rcases h with h | h <;> subst h <;>
    simp only [r1_gpio_event_detected] <;> (repeat' split) <;> simp_all

/-- C9 witness: the theorem evaluated at level 1 on a ghost observation. -/
theorem C9_led_writes_witness :
    (r1_gpio_event_detected ⟨false, false⟩ false ⟨1, ⟨false, false⟩⟩ 1).leds =
      ⟨true, false⟩ :=
  C9_led_writes ⟨false, false⟩ false ⟨1, ⟨false, false⟩⟩ 1 (Or.inr rfl)

/-- C1 counterexample: the claim says the stored state is committed before
dispatch, so after an observe whose dispatch raises the state equals the
newly observed level.  At the concrete input last state 0 (power on),
level 1, SNS enabled and a failing transport, the handler raises and the
stored state is still 0, not the newly observed 1: the assignment on line
215 sits after the publish call on line 214 and never executes. -/
theorem C1_counterexample :
    (r1_gpio_event_detected ⟨false, true⟩ false ⟨0, ⟨false, true⟩⟩ 1).raised
        = true ∧
    (r1_gpio_event_detected ⟨false, true⟩ false ⟨0, ⟨false, true⟩⟩ 1).lastState
        = 0 := by decide

/-- C1 amended: dispatch is attempted before the state update, and a
dispatch error aborts the handler before the update runs: after any
observe call whose dispatch raises, the stored state still equals the
previous level, never the newly observed one. -/
theorem C1_dispatch_error_keeps_previous_state (cfg : Config) (tOk : Bool)
    (st : ChannelState) (level : Nat)
    (h : (r1_gpio_event_detected cfg tOk st level).raised = true) :
    (r1_gpio_event_detected cfg tOk st level).lastState = st.lastState ∧
    (r1_gpio_event_detected cfg tOk st level).lastState ≠ level := by
  rcases (raised_iff cfg tOk st level).mp h with ⟨hse, htok, hc⟩
  subst htok
  rcases hc with ⟨hs, hl⟩ | ⟨hs, hl⟩ <;> subst hl <;>
    simp [r1_gpio_event_detected, publish_sns_alert, hs, hse]

/-- C1 witness: the amended theorem at last state 1, level 0, SNS enabled,
failing transport. -/
theorem C1_dispatch_error_keeps_previous_state_witness :
    (r1_gpio_event_detected ⟨true, true⟩ false ⟨1, ⟨true, false⟩⟩ 0).lastState
        = 1 ∧
    (r1_gpio_event_detected ⟨true, true⟩ false ⟨1, ⟨true, false⟩⟩ 0).lastState
        ≠ 0 :=
  C1_dispatch_error_keeps_previous_state ⟨true, true⟩ false ⟨1, ⟨true, false⟩⟩ 0
    (by decide)

/-- C3 counterexample: with a failing transport the Success observation
(last state 1, level 0) is classified Success and forwarded to
publish_sns_alert, but the stored state is not set to 0: the claim that
the observation sets the state to PowerOn fails when dispatch raises. -/
theorem C3_counterexample :
    (r1_gpio_event_detected ⟨false, true⟩ false ⟨1, ⟨true, false⟩⟩ 0).status
        = some .success ∧
    (r1_gpio_event_detected ⟨false, true⟩ false ⟨1, ⟨true, false⟩⟩ 0).alert
        = some .success ∧
    (r1_gpio_event_detected ⟨false, true⟩ false ⟨1, ⟨true, false⟩⟩ 0).lastState
        ≠ 0 := by decide

/-- C3 amended: provided the dispatch call returns normally, an
observation of level 1 with last state 0 (power on) is classified Failure
and sets the stored state to 1, an observation of level 0 with last state
1 (power off) is classified Success and sets the stored state to 0, and in
both cases the event is forwarded to publish_sns_alert. -/
theorem C3_genuine_transition (cfg : Config) (tOk : Bool) (leds : LedState)
    (hok : cfg.snsEnable = true → tOk = true) :
    r1_gpio_event_detected cfg tOk ⟨0, leds⟩ 1 =
      ⟨1, ⟨true, false⟩, some .failure, some .failure, cfg.snsEnable, false⟩ ∧
    r1_gpio_event_detected cfg tOk ⟨1, leds⟩ 0 =
      ⟨0, ⟨false, true⟩, some .success, some .success, cfg.snsEnable, false⟩ := by
  cases cfg with
  | mk lg se =>
      cases se <;> cases tOk <;>
        simp_all [r1_gpio_event_detected, publish_sns_alert]

/-- C3 witness: the amended theorem with SNS enabled and a healthy
transport. -/
theorem C3_genuine_transition_witness :
    r1_gpio_event_detected ⟨false, true⟩ true ⟨0, ⟨false, false⟩⟩ 1 =
      ⟨1, ⟨true, false⟩, some .failure, some .failure, true, false⟩ ∧
    r1_gpio_event_detected ⟨false, true⟩ true ⟨1, ⟨false, false⟩⟩ 0 =
      ⟨0, ⟨false, true⟩, some .success, some .success, true, false⟩ :=
  C3_genuine_transition ⟨false, true⟩ true ⟨false, false⟩ (fun _ => rfl)

/-- C5: an observation whose level matches the stored state (level 1 with
last state 1, or level 0 with last state 0) is a ghost trigger: repeated
any number of times it never changes the stored state, never calls
publish_sns_alert, never raises, and its status is Ghost Trigger when
LOG_GHOSTS is set and suppressed (no status assigned) otherwise. -/
theorem C5_ghost_idempotent (cfg : Config) (tOk : Bool) (st : ChannelState)
    (level n : Nat)
    (h : (st.lastState = 1 ∧ level = 1) ∨ (st.lastState = 0 ∧ level = 0)) :
    runObserve cfg tOk st (List.replicate n level) =
      List.replicate n
        ⟨st.lastState, ⟨level == 1, level == 0⟩,
          if cfg.logGhosts = true then some .ghostTrigger else none,
          none, false, false⟩ := by
  induction n generalizing st with
  | zero => simp [runObserve]
  | succ n ih =>
      have hstep : r1_gpio_event_detected cfg tOk st level =
          ⟨st.lastState, ⟨level == 1, level == 0⟩,
            if cfg.logGhosts = true then some .ghostTrigger else none,
            none, false, false⟩ := by
        rcases h with ⟨h1, h2⟩ | ⟨h1, h2⟩ <;> subst h2 <;>
          by_cases hg : cfg.logGhosts = true <;>
            simp [r1_gpio_event_detected, h1, hg]
      have hnext := ih ⟨st.lastState, ⟨level == 1, level == 0⟩⟩ h
      simp [List.replicate_succ, runObserve, hstep, hnext]

/-- C5 witness: two repeated level-1 observations on a channel whose
stored state is already 1, with LOG_GHOSTS set. -/
theorem C5_ghost_idempotent_witness :
    runObserve ⟨true, true⟩ true ⟨1, ⟨false, false⟩⟩ (List.replicate 2 1) =
      List.replicate 2
        ⟨1, ⟨true, false⟩, some .ghostTrigger, none, false, false⟩ :=
  C5_ghost_idempotent ⟨true, true⟩ true ⟨1, ⟨false, false⟩⟩ 1 2
    (Or.inl ⟨rfl, rfl⟩)

/-- C7: with SNS_ENABLE false, publish_sns_alert is a no-op success, and
over any sequence of observations, from any state, no invocation ever
publishes to the transport or raises. -/
theorem C7_alerts_disabled (lg tOk : Bool) (st : ChannelState)
    (levels : List Nat) :
    (∀ t, publish_sns_alert false t = ⟨false, false⟩) ∧
    (runObserve ⟨lg, false⟩ tOk st levels).all
      (fun r => !r.snsPublished && !r.raised) = true := by
  refine ⟨fun t => rfl, ?_⟩
  induction levels generalizing st with
  | nil => simp [runObserve]
  | cons l ls ih =>
      have hstep := observe_snsDisabled lg tOk st l
      simp [runObserve, hstep.1, hstep.2, ih]

/-- C10: the stored state is 2 (the Initializing sentinel) at module load
and only ever holds 0, 1, or 2; after any observe with a valid level whose
dispatch did not raise, the stored state equals the observed level; and a
channel whose state has left the sentinel never returns to it. -/
theorem C10_state_invariant (cfg : Config) (tOk : Bool) (st : ChannelState)
    (level : Nat)
    (hst : st.lastState = 0 ∨ st.lastState = 1 ∨ st.lastState = 2) :
    initialChannel.lastState = 2 ∧
    ((r1_gpio_event_detected cfg tOk st level).lastState = 0 ∨
     (r1_gpio_event_detected cfg tOk st level).lastState = 1 ∨
     (r1_gpio_event_detected cfg tOk st level).lastState = 2) ∧
    ((level = 0 ∨ level = 1) →
      (r1_gpio_event_detected cfg tOk st level).raised = false →
      (r1_gpio_event_detected cfg tOk st level).lastState = level) ∧
    (st.lastState ≠ 2 →
      (r1_gpio_event_detected cfg tOk st level).lastState ≠ 2) := by
  refine ⟨rfl, ?_⟩
  cases cfg with
  | mk lg se =>
      rcases hst with h | h | h <;>
        by_cases e1 : level = 1 <;> by_cases e0 : level = 0 <;>
          cases se <;> cases tOk <;> cases lg <;>
            simp_all [r1_gpio_event_detected, publish_sns_alert]

/-- C10 witness: the theorem at last state 0, level 1, SNS enabled,
healthy transport. -/
theorem C10_state_invariant_witness :
    initialChannel.lastState = 2 ∧
    ((r1_gpio_event_detected ⟨false, true⟩ true ⟨0, ⟨false, true⟩⟩ 1).lastState
        = 0 ∨
     (r1_gpio_event_detected ⟨false, true⟩ true ⟨0, ⟨false, true⟩⟩ 1).lastState
        = 1 ∨
     (r1_gpio_event_detected ⟨false, true⟩ true ⟨0, ⟨false, true⟩⟩ 1).lastState
        = 2) ∧
    (((1 : Nat) = 0 ∨ (1 : Nat) = 1) →
      (r1_gpio_event_detected ⟨false, true⟩ true ⟨0, ⟨false, true⟩⟩ 1).raised
          = false →
      (r1_gpio_event_detected ⟨false, true⟩ true ⟨0, ⟨false, true⟩⟩ 1).lastState
          = 1) ∧
    ((0 : Nat) ≠ 2 →
      (r1_gpio_event_detected ⟨false, true⟩ true ⟨0, ⟨false, true⟩⟩ 1).lastState
          ≠ 2) :=
  C10_state_invariant ⟨false, true⟩ true ⟨0, ⟨false, true⟩⟩ 1 (Or.inl rfl)

end DetectorZero
